import Mathlib

/-!
Verification of the Person/Location validation-and-serialization contract of
the FastAPI tutorial application (src/main.py).

The embedding translates the declarative field constraints and the handler
bodies of src/main.py into executable Lean definitions.  Responses are
modelled as a status code paired with an association list of
(field name, value) pairs, in the insertion order Python dictionaries keep.
-/

namespace FastApiApp

/-- Enumeration HairColor of src/main.py: the five allowed hair colors. -/
inductive HairColor
  | white
  | brown
  | black
  | blonde
  | red
deriving DecidableEq, Repr

/-- String value of each HairColor member, as in the Python str-Enum. -/
def HairColor.toStr : HairColor → String
  | .white => "white"
  | .brown => "brown"
  | .black => "black"
  | .blonde => "blonde"
  | .red => "red"

/-- Model Location of src/main.py: three string fields. -/
structure Location where
  city : String
  state : String
  country : String
deriving DecidableEq, Repr

/-- Model Person of src/main.py.  Optional fields are Option; a None value
stands for an absent or null field.  Email, IP and URL fields keep their raw
string form, their format checks are separate predicates. -/
structure Person where
  first_name : String
  last_name : String
  age : Int
  hair_color : Option HairColor
  is_married : Option Bool
  email : String
  addressIp : Option String
  website_url : Option String
  password : String
deriving DecidableEq, Repr

/-- Model LoginOut of src/main.py; message holds the declared default. -/
structure LoginOut where
  username : String
  password : String
  message : String := "Login successful :)"
deriving DecidableEq, Repr

/-- Split a character list at every occurrence of a separator character; the
groups keep their order and drop the separator. -/
def splitOnChar (sep : Char) : List Char → List (List Char)
  | [] => [[]]
  | ch :: rest =>
    match splitOnChar sep rest with
    | [] => if ch == sep then [[], []] else [[ch]]
    | g :: gs => if ch == sep then [] :: g :: gs else (ch :: g) :: gs

/-- Modelled from the spec: the EmailStr format predicate is supplied by the
data-validation library, not by src/main.py; the spec asks for
local@domain syntax.  We require exactly one at-sign with nonempty local and
domain parts. -/
def isEmailFormat (s : String) : Bool :=
  match splitOnChar '@' s.toList with
  | [loc, dom] => !loc.isEmpty && !dom.isEmpty
  | _ => false

/-- Hexadecimal digit test, used by the IPv6 branch of the IP predicate. -/
def isHexChar (ch : Char) : Bool :=
  ch.isDigit || (decide ('a' ≤ ch) && decide (ch ≤ 'f')) ||
    (decide ('A' ≤ ch) && decide (ch ≤ 'F'))

/-- Numeric value of a list of decimal digit characters, least significant
digit first. -/
def decDigitsVal : List Char → Nat
  | [] => 0
  | ch :: rest => (ch.toNat - 48) + 10 * decDigitsVal rest

/-- Modelled from the spec: the IPvAnyAddress format predicate is supplied by
the data-validation library; the spec asks for an IPv4 or IPv6 literal.  We
check dotted-quad IPv4 (four decimal groups, each at most 255) or a
colon-separated all-hex IPv6 form. -/
def isIpLiteral (s : String) : Bool :=
  (match splitOnChar '.' s.toList with
   | [a, b, c, d] =>
     [a, b, c, d].all (fun g =>
       !g.isEmpty && g.all Char.isDigit && decDigitsVal g.reverse ≤ 255)
   | _ => false) ||
  (s.toList.contains ':' &&
    s.toList.all (fun ch => isHexChar ch || ch == ':'))

/-- Modelled from the spec: the HttpUrl format predicate is supplied by the
data-validation library; the spec asks for scheme+host syntax.  We require an
http or https scheme followed by a nonempty host part. -/
def isUrlFormat (s : String) : Bool :=
  (("http://".toList).isPrefixOf s.toList && decide (7 < s.toList.length)) ||
  (("https://".toList).isPrefixOf s.toList && decide (8 < s.toList.length))

/-- Constraint of Person.first_name: Field(min_length=1, max_length=50). -/
def firstNameOk (s : String) : Bool :=
  decide (1 ≤ s.length) && decide (s.length ≤ 50)

/-- Constraint of Person.last_name: Field(min_length=1, max_length=50). -/
def lastNameOk (s : String) : Bool :=
  decide (1 ≤ s.length) && decide (s.length ≤ 50)

/-- Constraint of Person.age: Field(gt=0, le=150). -/
def ageOk (a : Int) : Bool :=
  decide (0 < a) && decide (a ≤ 150)

/-- Constraint of Person.email: EmailStr format. -/
def emailOk (s : String) : Bool :=
  isEmailFormat s

/-- Constraint of Person.addressIp: optional IPvAnyAddress. -/
def addressIpOk : Option String → Bool
  | none => true
  | some s => isIpLiteral s

/-- Constraint of Person.website_url: optional HttpUrl. -/
def websiteUrlOk : Option String → Bool
  | none => true
  | some s => isUrlFormat s

/-- Constraint of Person.password: Field(min_length=8). -/
def passwordOk (s : String) : Bool :=
  decide (8 ≤ s.length)

/-- Full Person validity: every declared field constraint holds
(hair_color and is_married are typed options with no extra constraint). -/
def Person.validB (p : Person) : Bool :=
  firstNameOk p.first_name && lastNameOk p.last_name && ageOk p.age &&
  emailOk p.email && addressIpOk p.addressIp &&
  websiteUrlOk p.website_url && passwordOk p.password

/-- Constraint of each Location field: Field(min_length=0, max_length=20). -/
def locFieldOk (s : String) : Bool :=
  decide (0 ≤ s.length) && decide (s.length ≤ 20)

/-- Full Location validity. -/
def Location.validB (l : Location) : Bool :=
  locFieldOk l.city && locFieldOk l.state && locFieldOk l.country

/-- Constraints of LoginOut: username max_length=20, password min_length=2
and max_length=20, message unconstrained. -/
def LoginOut.validB (l : LoginOut) : Bool :=
  decide (l.username.length ≤ 20) &&
  decide (2 ≤ l.password.length) && decide (l.password.length ≤ 20)

/-- A serialized JSON-like value. -/
inductive Val
  | s (v : String)
  | i (v : Int)
  | b (v : Bool)
  | null
  | num (v : ℚ)
deriving DecidableEq, Repr

/-- Serialization of an optional string field. -/
def optStrVal : Option String → Val
  | none => .null
  | some v => .s v

/-- Serialization of the optional hair_color field. -/
def optHairVal : Option HairColor → Val
  | none => .null
  | some h => .s h.toStr

/-- Serialization of the optional is_married field. -/
def optBoolVal : Option Bool → Val
  | none => .null
  | some v => .b v

/-- person.dict(): the Person fields in declaration order. -/
def Person.dict (p : Person) : List (String × Val) :=
  [("first_name", .s p.first_name),
   ("last_name", .s p.last_name),
   ("age", .i p.age),
   ("hair_color", optHairVal p.hair_color),
   ("is_married", optBoolVal p.is_married),
   ("email", .s p.email),
   ("addressIp", optStrVal p.addressIp),
   ("website_url", optStrVal p.website_url),
   ("password", .s p.password)]

/-- location.dict(): the Location fields in declaration order. -/
def Location.dict (l : Location) : List (String × Val) :=
  [("city", .s l.city),
   ("state", .s l.state),
   ("country", .s l.country)]

/-- LoginOut serialized in declaration order. -/
def LoginOut.dict (l : LoginOut) : List (String × Val) :=
  [("username", .s l.username),
   ("password", .s l.password),
   ("message", .s l.message)]

/-- The response_model_exclude projection: keep every field whose name is not
in the exclusion set, preserving order. -/
def excludeFields (excl : List String) (d : List (String × Val)) :
    List (String × Val) :=
  d.filter (fun kv => !excl.contains kv.1)

/-- Handler create_person (POST /person/new): status 201, body is the Person
projected through response_model_exclude of the password field. -/
def create_person (person : Person) : Nat × List (String × Val) :=
  (201, excludeFields ["password"] person.dict)

/-- Outcome of a fallible operation: an error value or a success value. -/
inductive Outcome (ε α : Type)
  | err (e : ε)
  | ok (a : α)
deriving DecidableEq, Repr

/-- One entry of a structured validation error: the offending field and the
reason its constraint failed. -/
structure FieldError where
  loc : String
  msg : String
deriving DecidableEq, Repr

/-- The reason text reported for each constrained Person field. -/
def fieldMsg : String → String
  | "first_name" => "length must be between 1 and 50"
  | "last_name" => "length must be between 1 and 50"
  | "age" => "must be greater than 0 and at most 150"
  | "email" => "value is not a valid email address"
  | "addressIp" => "value is not a valid IP address"
  | "website_url" => "value is not a valid URL"
  | "password" => "length must be at least 8"
  | _ => ""

/-- The constraint attached to one named Person field; names that carry no
constraint in src/main.py always pass. -/
def personFieldOk (f : String) (p : Person) : Bool :=
  match f with
  | "first_name" => firstNameOk p.first_name
  | "last_name" => lastNameOk p.last_name
  | "age" => ageOk p.age
  | "email" => emailOk p.email
  | "addressIp" => addressIpOk p.addressIp
  | "website_url" => websiteUrlOk p.website_url
  | "password" => passwordOk p.password
  | _ => true

/-- Record validation errors for a Person: every declared field constraint is
evaluated and every failure is collected, in field declaration order.  The
constraints come from src/main.py; the aggregation of all failures is the
record-validator contract the spec states for the data-validation library. -/
def personErrors (p : Person) : List FieldError :=
  (if firstNameOk p.first_name then [] else [⟨"first_name", fieldMsg "first_name"⟩]) ++
  (if lastNameOk p.last_name then [] else [⟨"last_name", fieldMsg "last_name"⟩]) ++
  (if ageOk p.age then [] else [⟨"age", fieldMsg "age"⟩]) ++
  (if emailOk p.email then [] else [⟨"email", fieldMsg "email"⟩]) ++
  (if addressIpOk p.addressIp then [] else [⟨"addressIp", fieldMsg "addressIp"⟩]) ++
  (if websiteUrlOk p.website_url then [] else [⟨"website_url", fieldMsg "website_url"⟩]) ++
  (if passwordOk p.password then [] else [⟨"password", fieldMsg "password"⟩])

/-- Record validation of a Person: the typed record when every constraint
holds, otherwise the structured error listing every offending field. -/
def validatePerson (p : Person) : Outcome (List FieldError) Person :=
  match personErrors p with
  | [] => .ok p
  | e :: es => .err (e :: es)

/-- Python dict.update: existing keys of the base keep their position and take
the updating value; keys new to the base are appended in the updating order. -/
def dictUpdate (base upd : List (String × Val)) : List (String × Val) :=
  (base.map (fun kv =>
    match upd.lookup kv.1 with
    | some v => (kv.1, v)
    | none => kv)) ++
  upd.filter (fun kv => !(base.map Prod.fst).contains kv.1)

/-- Handler update_person (PUT /person/person_id): Path(gt=0) rejects a
non-positive identifier before the handler runs (modelled as none); otherwise
status 200 with person.dict() updated by location.dict(). -/
def update_person (person_id : Int) (person : Person) (location : Location) :
    Option (Nat × List (String × Val)) :=
  if 0 < person_id then
    some (200, dictUpdate person.dict location.dict)
  else none

/-- A Python value arriving at a str-typed pydantic field: either a plain
str or a SecretStr wrapper around one.  The login form of src/main.py binds
username as plain str and password as SecretStr. -/
inductive PyStrValue
  | plain (v : String)
  | secret (v : String)
deriving DecidableEq, Repr

/-- The pydantic v1 validator of a str-typed field: a plain str passes
through; any other object, a SecretStr wrapper included, is rejected with a
str-type error. -/
def strValidator : PyStrValue → Outcome String String
  | .plain v => .ok v
  | .secret _ => .err "str type expected"

/-- Handler login (POST /login): the username form field binds as a plain
str, the password form field binds as a SecretStr, and the handler builds
LoginOut(username, password), sending the SecretStr into the str-typed
password field of LoginOut.  When any field of that construction fails
validation the handler raises and the request ends as a 500 internal server
error; on a successful construction the LoginOut constraints hold and the
body is the response_model_exclude projection of the password field. -/
def login (username password : String) :
    Outcome Nat (Nat × List (String × Val)) :=
  match strValidator (.plain username), strValidator (.secret password) with
  | .ok un, .ok pw =>
    let out : LoginOut := { username := un, password := pw }
    if out.validB then .ok (200, excludeFields ["password"] out.dict)
    else .err 500
  | _, _ => .err 500

/-- The static known-identifier list of src/main.py. -/
def persons : List Int := [1, 2, 3, 4]

/-- Handler show_person (GET /person/detail/person_id): Path(gt=0) rejects a
non-positive identifier before the handler runs (modelled as none); otherwise
404 with its detail text when the identifier is unknown, else 200 with the
body mapping the identifier to the success text. -/
def show_person_detail (person_id : Int) :
    Option (Outcome (Nat × String) (Nat × Int × String)) :=
  if 0 < person_id then
    some (if persons.contains person_id then
            .ok (200, person_id, "it exists!")
          else
            .err (404, "This person is not exist"))
  else none

/-- The form-field constraints of the contact handler: first_name and
last_name Form(min_length=1, max_length=20), email EmailStr, message
Form(min_length=20). -/
def contactFormOk (first_name last_name email message : String) : Bool :=
  decide (1 ≤ first_name.length) && decide (first_name.length ≤ 20) &&
  decide (1 ≤ last_name.length) && decide (last_name.length ≤ 20) &&
  isEmailFormat email &&
  decide (20 ≤ message.length)

/-- Handler contact (POST /contact): the form fields are validated before the
handler runs (failure modelled as none); the header and cookie are optional
pass-throughs; the body returned is exactly the user_agent header value. -/
def contact (first_name last_name email message : String)
    (user_agent ads : Option String) : Option (Nat × Option String) :=
  if contactFormOk first_name last_name email message then
    some (200, user_agent)
  else none

/-- An uploaded file: original filename, declared content type, and the raw
bytes of its content. -/
structure UploadFileRec where
  filename : String
  content_type : String
  content : List Nat
deriving DecidableEq, Repr

/-- Round num/den to the nearest integer, ties to the even integer: the
rounding Python round uses. -/
def roundHalfEven (num den : Nat) : Nat :=
  let quo := num / den
  let rem := num % den
  if 2 * rem < den then quo
  else if den < 2 * rem then quo + 1
  else if quo % 2 = 0 then quo else quo + 1

/-- Python round(byteLen / 1024, 2) expressed in hundredths of a kilobyte:
byteLen / 1024 kilobytes is 100 * byteLen / 1024 hundredths. -/
def sizeKbHundredths (byteLen : Nat) : Nat :=
  roundHalfEven (100 * byteLen) 1024

/-- Handler post_image (POST /post-image): returns the filename, the content
type, and the byte length of the content divided by 1024 rounded to two
decimal places. -/
def post_image (image : UploadFileRec) : List (String × Val) :=
  [("Filename", .s image.filename),
   ("Format", .s image.content_type),
   ("Size(kb)", .num ((sizeKbHundredths image.content.length : ℚ) / 100))]

/-- A valid Person used by concrete scenarios: the PUT /person/5 body of the
spec, optional fields absent. -/
def personAB : Person :=
  { first_name := "A", last_name := "B", age := 30, hair_color := none,
    is_married := none, email := "a@b.com", addressIp := none,
    website_url := none, password := "longenough" }

/-- The Location body of the PUT /person/5 scenario. -/
def locationXYZ : Location :=
  { city := "X", state := "Y", country := "Z" }

/-- A Person violating two constraints at once: age 0 and a 5-character
password. -/
def personTwoBad : Person :=
  { personAB with age := 0, password := "short" }

end FastApiApp

namespace FastApiApp

/-- Claim C1: for every valid Person, the POST /person/new response contains
no password key and contains every other declared Person field exactly once,
in declaration order. -/
theorem C1_create_person_excludes_password (p : Person)
    (h : p.validB = true) :
    "password" ∉ (create_person p).2.map Prod.fst ∧
    (create_person p).2.map Prod.fst =
      ["first_name", "last_name", "age", "hair_color", "is_married",
       "email", "addressIp", "website_url"] := by
  constructor
  · simp [create_person, excludeFields, Person.dict]
  · simp [create_person, excludeFields, Person.dict]

theorem C1_create_person_excludes_password_witness :
    personAB.validB = true ∧
    ("password" ∉ (create_person personAB).2.map Prod.fst ∧
     (create_person personAB).2.map Prod.fst =
       ["first_name", "last_name", "age", "hair_color", "is_married",
        "email", "addressIp", "website_url"]) :=
  ⟨by decide, C1_create_person_excludes_password personAB (by decide)⟩

/-- Merging a Person dict with a Location dict through dict.update is plain
concatenation, because the two records share no field name. -/
lemma dictUpdate_person_location (p : Person) (l : Location) :
    dictUpdate p.dict l.dict = p.dict ++ l.dict := by
  simp [dictUpdate, Person.dict, Location.dict, List.lookup]

/-- Claim C2: for every positive person_id, valid Person and valid Location,
PUT /person/person_id returns status 200 with the merged mapping holding all
Person fields, password included, followed by the Location fields. -/
theorem C2_update_person_merges (person_id : Int) (p : Person) (l : Location)
    (hid : 0 < person_id) (hp : p.validB = true) (hl : l.validB = true) :
    update_person person_id p l = some (200, p.dict ++ l.dict) ∧
    (p.dict ++ l.dict).map Prod.fst =
      ["first_name", "last_name", "age", "hair_color", "is_married",
       "email", "addressIp", "website_url", "password",
       "city", "state", "country"] ∧
    ("password", Val.s p.password) ∈ p.dict ++ l.dict := by
  refine ⟨?_, ?_, ?_⟩
  · simp [update_person, hid, dictUpdate_person_location]
  · simp [Person.dict, Location.dict]
  · simp [Person.dict, Location.dict]

theorem C2_update_person_merges_witness :
    (0 : Int) < 5 ∧ personAB.validB = true ∧ locationXYZ.validB = true ∧
    (update_person 5 personAB locationXYZ =
       some (200, personAB.dict ++ locationXYZ.dict) ∧
     (personAB.dict ++ locationXYZ.dict).map Prod.fst =
       ["first_name", "last_name", "age", "hair_color", "is_married",
        "email", "addressIp", "website_url", "password",
        "city", "state", "country"] ∧
     ("password", Val.s personAB.password) ∈ personAB.dict ++ locationXYZ.dict) :=
  ⟨by decide, by decide, by decide,
   C2_update_person_merges 5 personAB locationXYZ (by decide) (by decide)
     (by decide)⟩

/-- Claim C3 fails on the code: POST /login with username gus and password
123 hands the SecretStr-wrapped password to the str-typed password field of
LoginOut, the str validation rejects it, the handler raises, and the request
ends as a 500 internal server error — the claimed 200 body never occurs. -/
theorem C3_login_gus_raises :
    login "gus" "123" = .err 500 ∧
    strValidator (.secret "123") = .err "str type expected" := by
  decide

/-- Claim C4: for every positive identifier, GET /person/detail/person_id
succeeds with 200 and the identifier mapped to the success text exactly when
the identifier is in the static list 1, 2, 3, 4, and otherwise fails with 404
and its detail text. -/
theorem C4_show_person_detail_membership (person_id : Int)
    (h : 0 < person_id) :
    (show_person_detail person_id =
       some (.ok (200, person_id, "it exists!")) ↔ person_id ∈ persons) ∧
    (person_id ∉ persons →
      show_person_detail person_id =
        some (.err (404, "This person is not exist"))) := by
  by_cases hc : person_id ∈ persons
  · constructor
    · simp only [show_person_detail, if_pos h]
      rw [if_pos (by simpa [List.contains, List.elem_iff] using hc)]
      simp [hc]
    · intro hn
      exact absurd hc hn
  · constructor
    · simp only [show_person_detail, if_pos h]
      rw [if_neg (by simpa [List.contains, List.elem_iff] using hc)]
      simp [hc]
    · intro _
      simp only [show_person_detail, if_pos h]
      rw [if_neg (by simpa [List.contains, List.elem_iff] using hc)]

theorem C4_show_person_detail_membership_witness :
    (0 : Int) < 123 ∧ (123 : Int) ∉ persons ∧
    show_person_detail 123 =
      some (.err (404, "This person is not exist")) ∧
    (0 : Int) < 2 ∧ (2 : Int) ∈ persons ∧
    show_person_detail 2 = some (.ok (200, 2, "it exists!")) :=
  ⟨by decide, by decide,
   (C4_show_person_detail_membership 123 (by decide)).2 (by decide),
   by decide, by decide,
   (C4_show_person_detail_membership 2 (by decide)).1.mpr (by decide)⟩

/-- Claim C5: a Person with age outside 1..150 never validates; with age in
1..150 and every other constrained field valid, validation succeeds. -/
theorem C5_age_bounds (p : Person) :
    (p.age ≤ 0 ∨ 150 < p.age → p.validB = false) ∧
    (firstNameOk p.first_name = true → lastNameOk p.last_name = true →
     emailOk p.email = true → addressIpOk p.addressIp = true →
     websiteUrlOk p.website_url = true → passwordOk p.password = true →
     (p.validB = true ↔ 1 ≤ p.age ∧ p.age ≤ 150)) := by
  constructor
  · intro hage
    have hA : ageOk p.age = false := by
      have hA1 : ¬ (ageOk p.age = true) := by
        simp only [ageOk, Bool.and_eq_true, decide_eq_true_eq]
        omega
      exact Bool.eq_false_iff.mpr hA1
    simp [Person.validB, hA]
  · intro h1 h2 h3 h4 h5 h6
    simp only [Person.validB, h1, h2, h3, h4, h5, h6, ageOk,
      Bool.and_eq_true, decide_eq_true_eq, Bool.true_and, Bool.and_true]
    omega

theorem C5_age_bounds_witness :
    personAB.validB = true ∧
    (personTwoBad.age ≤ 0 ∨ 150 < personTwoBad.age) ∧
    personTwoBad.validB = false :=
  ⟨((C5_age_bounds personAB).2 (by decide) (by decide) (by decide) (by decide)
      (by decide) (by decide)).mpr (by decide),
   Or.inl (by decide),
   (C5_age_bounds personTwoBad).1 (Or.inl (by decide))⟩

/-- Claim C6: a Person whose password is shorter than 8 characters never
validates; with password length at least 8 and every other constrained field
valid, validation succeeds. -/
theorem C6_password_length (p : Person) :
    (p.password.length < 8 → p.validB = false) ∧
    (firstNameOk p.first_name = true → lastNameOk p.last_name = true →
     ageOk p.age = true → emailOk p.email = true →
     addressIpOk p.addressIp = true → websiteUrlOk p.website_url = true →
     (p.validB = true ↔ 8 ≤ p.password.length)) := by
  constructor
  · intro hlen
    have hP : passwordOk p.password = false := by
      have hP1 : ¬ (passwordOk p.password = true) := by
        simp only [passwordOk, decide_eq_true_eq]
        omega
      exact Bool.eq_false_iff.mpr hP1
    simp [Person.validB, hP]
  · intro h1 h2 h3 h4 h5 h6
    simp [Person.validB, h1, h2, h3, h4, h5, h6, passwordOk]

theorem C6_password_length_witness :
    personAB.validB = true ∧
    personTwoBad.password.length < 8 ∧
    personTwoBad.validB = false :=
  ⟨((C6_password_length personAB).2 (by decide) (by decide) (by decide)
      (by decide) (by decide) (by decide)).mpr (by decide),
   by decide,
   (C6_password_length personTwoBad).1 (by decide)⟩

/-- Claim C7: a Location validates exactly when each of city, state, country
has length at most 20 (every length is at least 0), and in particular the
all-empty Location validates. -/
theorem C7_location_bounds (l : Location) :
    ({ city := "", state := "", country := "" } : Location).validB = true ∧
    (l.validB = true ↔
      l.city.length ≤ 20 ∧ l.state.length ≤ 20 ∧ l.country.length ≤ 20) := by
  refine ⟨by decide, ?_⟩
  simp [Location.validB, locFieldOk, and_assoc]

/-- Every field whose constraint fails contributes its entry to the collected
Person error list. -/
lemma mem_personErrors (p : Person) (f : String)
    (hf : personFieldOk f p = false) :
    (⟨f, fieldMsg f⟩ : FieldError) ∈ personErrors p := by
  unfold personFieldOk at hf
  split at hf
  · simp [personErrors, hf]
  · simp [personErrors, hf]
  · simp [personErrors, hf]
  · simp [personErrors, hf]
  · simp [personErrors, hf]
  · simp [personErrors, hf]
  · simp [personErrors, hf]
  · exact Bool.noConfusion hf

/-- Claim C8: whenever any constrained field of a submitted Person is
invalid, record validation fails with a structured error list containing an
entry naming that field with its reason — so with several invalid fields,
every one of them is reported, not only the first. -/
theorem C8_every_invalid_field_reported (p : Person) (f : String)
    (hf : personFieldOk f p = false) :
    ∃ es, validatePerson p = .err es ∧
      (⟨f, fieldMsg f⟩ : FieldError) ∈ es := by
  have hm := mem_personErrors p f hf
  rcases hE : personErrors p with _ | ⟨e, es⟩
  · rw [hE] at hm
    simp at hm
  · refine ⟨e :: es, ?_, by rw [hE] at hm; exact hm⟩
    unfold validatePerson
    rw [hE]

theorem C8_every_invalid_field_reported_witness :
    (∃ es, validatePerson personTwoBad = .err es ∧
      (⟨"age", fieldMsg "age"⟩ : FieldError) ∈ es) ∧
    (∃ es, validatePerson personTwoBad = .err es ∧
      (⟨"password", fieldMsg "password"⟩ : FieldError) ∈ es) :=
  ⟨C8_every_invalid_field_reported personTwoBad "age" (by decide),
   C8_every_invalid_field_reported personTwoBad "password" (by decide)⟩

/-- The rounded hundredths-of-a-kilobyte size is within half a hundredth of
the exact value 100 * n / 1024. -/
lemma sizeKbHundredths_bound (n : Nat) :
    -(1024 : Int) ≤ 2 * (1024 * (sizeKbHundredths n : Int)) - 2 * (100 * n) ∧
    2 * (1024 * (sizeKbHundredths n : Int)) - 2 * (100 * n) ≤ 1024 := by
  simp only [sizeKbHundredths, roundHalfEven]
  split
  · omega
  · split
    · omega
    · split <;> omega

/-- Claim C9: POST /post-image returns exactly the three derived facts —
filename, content type, and the content byte length divided by 1024 rounded
to two decimal places (within half of the last decimal place). -/
theorem C9_post_image_three_facts (image : UploadFileRec) :
    (post_image image).map Prod.fst = ["Filename", "Format", "Size(kb)"] ∧
    (post_image image).lookup "Filename" = some (.s image.filename) ∧
    (post_image image).lookup "Format" = some (.s image.content_type) ∧
    ∃ h : ℕ, (post_image image).lookup "Size(kb)" =
        some (.num ((h : ℚ) / 100)) ∧
      |(h : ℚ) / 100 - (image.content.length : ℚ) / 1024| ≤ 1 / 200 := by
  refine ⟨by simp [post_image], by simp [post_image, List.lookup],
    by simp [post_image, List.lookup], ?_⟩
  refine ⟨sizeKbHundredths image.content.length,
    by simp [post_image, List.lookup], ?_⟩
  have hb := sizeKbHundredths_bound image.content.length
  have hb1 : -(1024 : ℚ) ≤
      2 * (1024 * (sizeKbHundredths image.content.length : ℚ)) -
        2 * (100 * (image.content.length : ℚ)) := by
    exact_mod_cast hb.1
  have hb2 : 2 * (1024 * (sizeKbHundredths image.content.length : ℚ)) -
      2 * (100 * (image.content.length : ℚ)) ≤ 1024 := by
    exact_mod_cast hb.2
  rw [abs_le]
  constructor <;> linarith

/-- Claim C10: a POST /contact request whose form fields validate answers
with exactly the user_agent header value, absent modelled as none, and the
answer does not depend on the form fields or the ads cookie: two valid
requests sharing a user_agent get identical responses. -/
theorem C10_contact_depends_only_on_user_agent
    (fn1 ln1 em1 ms1 fn2 ln2 em2 ms2 : String)
    (ua ads1 ads2 : Option String)
    (h1 : contactFormOk fn1 ln1 em1 ms1 = true)
    (h2 : contactFormOk fn2 ln2 em2 ms2 = true) :
    contact fn1 ln1 em1 ms1 ua ads1 = some (200, ua) ∧
    contact fn1 ln1 em1 ms1 ua ads1 = contact fn2 ln2 em2 ms2 ua ads2 := by
  constructor
  · simp [contact, h1]
  · simp [contact, h1, h2]

theorem C10_contact_depends_only_on_user_agent_witness :
    contactFormOk "Ann" "Lee" "a@b.com" "a message of more than twenty characters" = true ∧
    contactFormOk "Bob" "Kim" "c@d.org" "a different message also above twenty" = true ∧
    contact "Ann" "Lee" "a@b.com" "a message of more than twenty characters"
        (some "curl/8.0") (some "tracker") = some (200, some "curl/8.0") ∧
    contact "Ann" "Lee" "a@b.com" "a message of more than twenty characters"
        (some "curl/8.0") (some "tracker") =
      contact "Bob" "Kim" "c@d.org" "a different message also above twenty"
        (some "curl/8.0") none :=
  ⟨by decide, by decide,
   (C10_contact_depends_only_on_user_agent
      "Ann" "Lee" "a@b.com" "a message of more than twenty characters"
      "Bob" "Kim" "c@d.org" "a different message also above twenty"
      (some "curl/8.0") (some "tracker") none (by decide) (by decide)).1,
   (C10_contact_depends_only_on_user_agent
      "Ann" "Lee" "a@b.com" "a message of more than twenty characters"
      "Bob" "Kim" "c@d.org" "a different message also above twenty"
      (some "curl/8.0") (some "tracker") none (by decide) (by decide)).2⟩

end FastApiApp
